import Mathlib

/-!
Verification of the testbrain test-run engine.

The definitions below are a shallow embedding of the current revision of the
engine (`lib/runner.go`, package `lib`, the revision whose `Runner` is built by
`NewRunner(stdout, stderr, options)` and whose results are the three lists
`[]PassedResult`, `[]SkippedResult`, `[]FailedResult`), together with
`lib/path_util.go` and `lib/test_result.go`.  Operating-system interactions
(process spawning, the filesystem walk, Go's `math/rand` global generator) are
represented by explicit parameters or explicit state, mirroring the structure
of the Go code; printing of progress lines is elided, the computed results are
retained.
-/

namespace Testbrain

/-- Constant `unknownExitCode = -1` from `lib/runner.go`. -/
def unknownExitCode : Int := -1

/-- Constant `skipTestExitCode = 99` from `lib/runner.go`. -/
def skipTestExitCode : Int := 99

/-- Type `TestResult` from `lib/runner.go` (current revision): a single test
script's name.  The display key is the root-relative path. -/
structure TestResult where
  TestFile : String
deriving DecidableEq, Repr

/-- Type `PassedResult` from `lib/runner.go`: `type PassedResult TestResult`. -/
abbrev PassedResult := TestResult

/-- Type `SkippedResult` from `lib/runner.go`: `type SkippedResult TestResult`. -/
abbrev SkippedResult := TestResult

/-- Type `FailedResult` from `lib/runner.go`: a `TestResult` together with the
numeric exit code of the failure. -/
structure FailedResult where
  base : TestResult
  ExitCode : Int
deriving DecidableEq, Repr

/-- Decoded `Sys()` value of a Go `*exec.ExitError`: either a
`syscall.WaitStatus` carrying a numeric exit status, or something that cannot
be decoded as one. -/
inductive Sys where
  | waitStatus (exitStatus : Int)
  | undecodable
deriving DecidableEq

/-- Error returned by Go's `command.Wait()` when it is not `nil`: either an
`*exec.ExitError` (with its `Sys()` payload) or some other error with a
message. -/
inductive WaitErr where
  | exitError (sys : Sys)
  | otherErr (msg : String)
deriving DecidableEq

/-- Rendering of a wait error, standing in for Go's `err.Error()` in the
`fmt.Fprintf(r.stderr, "Test failed: %v", err)` calls. -/
def waitErrMsg : WaitErr → String
  | .exitError _ => "exit error"
  | .otherErr msg => msg

/-- Function `getErrorCode` from `lib/runner.go`: given
`command.ProcessState.Success()` and the error from `command.Wait()`, produce
the normalized exit code and the error to bubble up.  Success yields `(0, nil)`;
an `ExitError` whose `Sys()` is a decodable `WaitStatus` yields its exit
status; any other non-nil error yields the unknown sentinel together with the
error; a failure without an error yields the unknown sentinel alone. -/
def getErrorCode (processSuccess : Bool) (err : Option WaitErr) : Int × Option WaitErr :=
  if processSuccess then (0, none)
  else
    match err with
    | some (.exitError (.waitStatus code)) => (code, none)
    | some e => (unknownExitCode, some e)
    | none => (unknownExitCode, none)

/-- Behaviour of `command.Wait()` and `command.ProcessState` for a process that
terminates on its own with exit code `code` (Go `os/exec` semantics: `Success()`
holds exactly for status 0, and a nonzero status surfaces as an
`*exec.ExitError` whose `WaitStatus` carries that status). -/
def naturalWait (code : Int) : Bool × Option WaitErr :=
  if code = 0 then (true, none)
  else (false, some (.exitError (.waitStatus code)))

/-- How a spawned test process can behave, as observed by `runSingleTest`:
`command.Start()` fails outright; the process completes before the timeout with
some exit code; or the timeout timer fires first. -/
inductive ProcBehavior where
  | startError (msg : String)
  | exits (code : Int)
  | runsPastTimeout
deriving DecidableEq

/-- Observable effect of one `runSingleTest` call: the returned exit code, the
text the engine itself wrote to the runner's stderr writer, and the content of
the per-test capture buffer (`outputBuf`, the non-verbose destination of the
process's combined output). -/
structure SingleTestRun where
  exitCode : Int
  stderrText : String
  capturedText : String
deriving DecidableEq

/-- The timeout message `"Killed by testbrain: Timed out after <duration>\n"`
written by `runSingleTest`; `tm` is the `%v` rendering of the configured
`time.Duration`. -/
def timeoutMarker (tm : String) : String :=
  "Killed by testbrain: Timed out after " ++ tm ++ "\n"

/-- Function `runSingleTest` from `lib/runner.go` (current revision).  If
`command.Start()` fails, the engine writes `"Test failed: <err>"` to the
runner's stderr and returns the unknown sentinel.  Otherwise it races
`command.Wait()` against `time.After(timeout)`: if the timeout fires first it
kills the process, writes the timeout marker to the runner's stderr and returns
the unknown sentinel; on natural completion it decodes the exit status via
`getErrorCode` (writing `"Test failed: <err>"` for a bubbled-up error).
`procOutput` is whatever the process wrote to the capture buffer before
finishing or being killed. -/
def runSingleTest (tm : String) (behav : ProcBehavior) (procOutput : String) : SingleTestRun :=
  match behav with
  | .startError msg =>
    { exitCode := unknownExitCode
      stderrText := "Test failed: " ++ msg
      capturedText := "" }
  | .runsPastTimeout =>
    { exitCode := unknownExitCode
      stderrText := timeoutMarker tm
      capturedText := procOutput }
  | .exits code =>
    let wait := naturalWait code
    let decoded := getErrorCode wait.1 wait.2
    match decoded.2 with
    | some e =>
      { exitCode := decoded.1
        stderrText := "Test failed: " ++ waitErrMsg e
        capturedText := procOutput }
    | none =>
      { exitCode := decoded.1
        stderrText := ""
        capturedText := procOutput }

/-- Exit code that `runAllTests` obtains from its `runSingleTest` call for the
file `f` (an abbreviation for the projection, used to state the partition
properties). -/
def runOne (tm : String) (behav : String → ProcBehavior) (outs : String → String)
    (f : String) : Int :=
  ( runSingleTest tm (behav f) (outs f) ).exitCode

/-- Function `runAllTests` from `lib/runner.go` (current revision): run every
test file in order through `runSingleTest` and partition the outcomes.  An exit
code equal to `skipTestExitCode` is recorded as a `SkippedResult`, exit code 0
as a `PassedResult`, and anything else as a `FailedResult` carrying that code.
`behav` and `outs` give each script's process behaviour and captured output;
printing of progress and of failed tests' buffered output is elided. -/
def runAllTests (tm : String) (behav : String → ProcBehavior) (outs : String → String) :
    List String → List PassedResult × List SkippedResult × List FailedResult
  | [] => ([], [], [])
  | testFile :: rest =>
    let exitCode := runOne tm behav outs testFile
    let acc := runAllTests tm behav outs rest
    if exitCode = skipTestExitCode then
      (acc.1, TestResult.mk testFile :: acc.2.1, acc.2.2)
    else if exitCode = 0 then
      (TestResult.mk testFile :: acc.1, acc.2.1, acc.2.2)
    else
      (acc.1, acc.2.1, FailedResult.mk (TestResult.mk testFile) exitCode :: acc.2.2)

/-- Outcome of `getTestScriptsWithOrder` as seen by `RunCommand`: either a
discovery/configuration error, or the test root and the ordered list of test
files. -/
inductive DiscoveryOutcome where
  | failure (msg : String)
  | success (testRoot : String) (testFiles : List String)

/-- Function `RunCommand` from `lib/runner.go` (current revision), the public
entrypoint.  A discovery error is returned as-is; a dry run returns `nil` after
listing the files; otherwise the tests are run and the call returns `nil`
exactly when no test failed, and the error `"<n> tests failed"` otherwise.
Printing and JSON rendering are elided. -/
def RunCommand (tm : String) (behav : String → ProcBehavior) (outs : String → String)
    (dryRun : Bool) (discovery : DiscoveryOutcome) : Except String Unit :=
  match discovery with
  | .failure msg => .error msg
  | .success _ testFiles =>
    if dryRun then .ok ()
    else
      let results := runAllTests tm behav outs testFiles
      if results.2.2.length = 0 then .ok ()
      else .error (toString results.2.2.length ++ " tests failed")

/-- Interface of the deterministic pseudo-random generator behind Go's
`math/rand` package-level functions, as used by `shuffleOrder`: `seedFn`
models `rand.Seed`, which replaces the generator's state with a value computed
from the seed alone, and `intn` models `rand.Intn`, which draws a number in
`[0, n)` and advances the state.  The shuffle is embedded parametrically in
this interface; its properties below hold for every instantiation. -/
structure RandGen (σ : Type) where
  seedFn : Int → σ
  intn : σ → Nat → Nat × σ

/-- In-place swap `list[i], list[j] = list[j], list[i]` of the Go shuffle loop
(the loop only ever uses in-bounds indices; out-of-bounds leaves the list
unchanged). -/
def listSwap (l : List α) (i j : Nat) : List α :=
  match l.get? i, l.get? j with
  | some a, some b => (l.set i b).set j a
  | _, _ => l

/-- Loop of `shuffleOrder` from `lib/runner.go`: for `i` from `len(list)-1`
down to `1`, draw `source := rand.Intn(i + 1)` and swap elements `i` and
`source`, threading the generator state explicitly. -/
def shuffleOrderAux (g : RandGen σ) : Nat → List α → σ → List α × σ
  | 0, l, st => (l, st)
  | i + 1, l, st =>
    let draw := g.intn st (i + 2)
    shuffleOrderAux g i ( listSwap l (i + 1) draw.1 ) draw.2

/-- Function `shuffleOrder` from `lib/runner.go` (current revision): it first
calls `rand.Seed(r.options.RandomSeed)` on the process-global generator —
overwriting whatever state `priorState` the generator held — and then runs the
Fisher–Yates loop with `rand.Intn` draws from that global generator.  The
result is the shuffled list together with the global generator state left
behind for the rest of the process. -/
def shuffleOrder (g : RandGen σ) (seed : Int) (l : List α) (priorState : σ) : List α × σ :=
  shuffleOrderAux g (l.length - 1) l (g.seedFn seed)

/-- Concrete deterministic generator (a Lehmer-style one) used only to
instantiate the `RandGen` interface on closed inputs in witnesses and
counterexamples.  It stands in for Go's `math/rand` global generator, whose
seeding likewise maps the seed into a state distinct from an arbitrary prior
state; the parametric theorems above it hold for every instantiation. -/
def demoGen : RandGen Nat where
  seedFn seed := seed.natAbs % 2147483646 + 1
  intn st n := (st % n, 48271 * st % 2147483647)

/-- Splitting a character list at every occurrence of `sep`, mirroring Go's
`strings.Split` (so a leading separator yields a leading empty segment). -/
def splitChars (sep : Char) : List Char → List (List Char)
  | [] => [[]]
  | c :: cs =>
    let rest := splitChars sep cs
    if c = sep then [] :: rest
    else
      match rest with
      | r :: rs => (c :: r) :: rs
      | [] => [[c]]

/-- Go's `strings.Split(path, string(filepath.Separator))` on Unix: split the
path on `'/'`. -/
def splitOnSlash (s : String) : List String :=
  ( splitChars '/' s.data ).map String.mk

/-- Whether a path is rooted, i.e. starts with the Unix separator. -/
def startsWithSlash (s : String) : Bool :=
  match s.data with
  | '/' :: _ => true
  | _ => false

/-- Go's `filepath.Clean` restricted to the paths this program manipulates
(absolute or relative paths without `.` or `..` components): the empty path
cleans to `"."`, repeated separators collapse, and a trailing separator is
dropped except for the root itself. -/
def pathClean (p : String) : String :=
  if p = "" then "."
  else
    let comps := ( splitOnSlash p ).filter (fun s => s != "")
    if startsWithSlash p then "/" ++ String.intercalate "/" comps
    else if comps.isEmpty then "." else String.intercalate "/" comps

/-- Go's `filepath.Join`: empty elements are ignored, the rest are joined with
the separator and cleaned; with no non-empty elements the result is `""`. -/
def filepathJoin (elems : List String) : String :=
  match elems.filter (fun s => s != "") with
  | [] => ""
  | nonEmpty => pathClean (String.intercalate "/" nonEmpty)

/-- Go's `filepath.Dir` on Unix for the clean paths this program manipulates:
everything up to the final separator, cleaned; a path without a separator has
directory `"."`, and the directory of a top-level absolute entry is `"/"`. -/
def filepathDir (p : String) : String :=
  let parts := splitOnSlash p
  if parts.length ≤ 1 then "."
  else
    let dirPart := String.intercalate "/" parts.dropLast
    if dirPart = "" then (if startsWithSlash p then "/" else ".")
    else pathClean dirPart

/-- Length of the common leading run of equal segments of two segment lists. -/
def matchingSegCount : List String → List String → Nat
  | b :: bs, t :: ts => if b = t then matchingSegCount bs ts + 1 else 0
  | _, _ => 0

/-- Go's `filepath.Rel(base, targ)` on Unix for the clean paths this program
manipulates: both paths must be absolute or both relative; the shared leading
segments are stripped, each remaining base segment becomes `".."`, and the
remaining target segments follow. -/
def filepathRel (base targ : String) : Except String String :=
  if startsWithSlash base != startsWithSlash targ then
    .error ("Rel: can't make " ++ targ ++ " relative to " ++ base)
  else
    let bsegs := ( splitOnSlash base ).filter (fun s => s != "" && s != ".")
    let tsegs := ( splitOnSlash targ ).filter (fun s => s != "" && s != ".")
    let common := matchingSegCount bsegs tsegs
    let rels := List.replicate (bsegs.length - common) ".." ++ tsegs.drop common
    match rels with
    | [] => .ok "."
    | _ => .ok (String.intercalate "/" rels)

/-- Inner loop of `CommonPathPrefix` from `lib/path_util.go`: walk segment
index `i` upward while every split path agrees with the first one, collecting
the agreed segments; stop at the first mismatch or after `fuel` (= `minLen`)
steps. -/
def commonSegs (pathParts : List (List String)) : Nat → Nat → List String
  | _, 0 => []
  | i, fuel + 1 =>
    let part := (pathParts.headD []).getD i ""
    if pathParts.all (fun parts => parts.getD i "" == part) then
      part :: commonSegs pathParts (i + 1) fuel
    else []

/-- Function `CommonPathPrefix` from `lib/path_util.go`: the longest common
segment-wise prefix of the given paths.  An empty input yields `""` without an
error; otherwise each path is split on the separator, `minLen` is the least
segment count (the Go loop starts from the maximum `int`), the separator is
placed in front (Unix), and the agreed segments are joined.  The inputs this
program passes are already absolute, so the `filepath.Abs` error path does not
arise. -/
def CommonPathPrefix (paths : List String) : Except String String :=
  match paths with
  | [] => .ok ""
  | _ =>
    let pathParts := paths.map splitOnSlash
    let minLen := ( pathParts.map List.length ).foldl min 9223372036854775807
    let matchingParts := "/" :: commonSegs pathParts 0 minLen
    .ok ( filepathJoin matchingParts )

/-- A discovery target of `getTestScripts` as the filesystem presents it:
its absolute path, whether `os.Stat` reports a directory, and — for a
directory — the regular files `filepath.Walk` visits beneath it, in walk
order (directory entries themselves are skipped by the walk callback). -/
structure Target where
  absPath : String
  isDir : Bool
  walkFiles : List String
deriving DecidableEq

/-- Per-target discovery of `getTestScripts` from `lib/runner.go` (current
revision): an individual file is kept only if it matches the include pattern
and does not match the exclude pattern; a directory contributes every walked
regular file that matches include and not exclude.  `inc` and `exc` model
`includeRe.MatchString` and `excludeRe.MatchString`. -/
def discoverTargetTests (inc exc : String → Bool) (t : Target) : List String :=
  if !t.isDir then
    if !inc t.absPath then []
    else if exc t.absPath then []
    else [t.absPath]
  else
    t.walkFiles.filter (fun path => inc path && !exc path)

/-- Root computation of `getTestScripts` from `lib/runner.go` (current
revision): with more than one target, the root is the common path prefix of
the found tests unless exactly one test was found, in which case it is that
test's parent directory; with a single target, the root is the target itself
if it is a directory and its parent directory otherwise.  (With zero targets
the Go code would index `testTargets[0]` out of range; callers always supply
at least one target.) -/
def computeTestRoot (targets : List Target) (foundTests : List String) : Except String String :=
  if targets.length > 1 then
    match foundTests with
    | [onlyTest] => .ok ( filepathDir onlyTest )
    | _ => CommonPathPrefix foundTests
  else
    match targets with
    | [] => .error "index out of range"
    | t :: _ => .ok (if t.isDir then t.absPath else filepathDir t.absPath)

/-- Function `getTestScripts` from `lib/runner.go` (current revision): gather
the tests of every target, compute the root, and rewrite every found test to
its path relative to that root, returning the root and the rewritten list. -/
def getTestScripts (inc exc : String → Bool) (targets : List Target) :
    Except String (String × List String) := do
  let foundTests := (targets.map (discoverTargetTests inc exc)).flatten
  let testRoot ← computeTestRoot targets foundTests
  let relPaths ← foundTests.mapM (fun path => filepathRel testRoot path)
  return (testRoot, relPaths)

/-- Containment of one string in another, used to state where the timeout
marker ends up. -/
def strContains (hay needle : String) : Prop :=
  ∃ pre post, hay = pre ++ needle ++ post

/-- Helper: a process terminating on its own with exit code `code` is decoded
by `runSingleTest` (through `getErrorCode`) to exactly that code, with nothing
written to the runner's stderr and the process output captured. -/
theorem runSingleTest_exits (tm out : String) (code : Int) :
    runSingleTest tm (.exits code) out
      = { exitCode := code, stderrText := "", capturedText := out } := by
  by_cases hc : code = 0 <;>
    simp [runSingleTest, naturalWait, getErrorCode, hc]

/-- Helper: the three buckets of `runAllTests` are the order-preserving
selections of the input files by exit code (0 for passed, the skip code for
skipped, everything else for failed with its code). -/
theorem runAllTests_eq_filters (tm : String) (behav : String → ProcBehavior)
    (outs : String → String) (files : List String) :
    runAllTests tm behav outs files =
      ( (files.filter (fun f => runOne tm behav outs f == 0)).map TestResult.mk,
        (files.filter (fun f => runOne tm behav outs f == skipTestExitCode)).map TestResult.mk,
        (files.filter (fun f =>
            !(runOne tm behav outs f == skipTestExitCode)
              && !(runOne tm behav outs f == 0))).map
          (fun f => FailedResult.mk (TestResult.mk f) (runOne tm behav outs f)) ) := by
  have hs0 : ¬ (skipTestExitCode = (0 : Int)) := by decide
  have h0s : ¬ ((0 : Int) = skipTestExitCode) := by decide
  induction files with
  | nil => rfl
  | cons f rest ih =>
    by_cases h99 : runOne tm behav outs f = skipTestExitCode
    · have h0 : ¬ runOne tm behav outs f = 0 := by
        rw [h99]; decide
      simp [runAllTests, ih, List.filter_cons, h99, h0, hs0]
    · by_cases h0 : runOne tm behav outs f = 0
      · simp [runAllTests, ih, List.filter_cons, h99, h0, h0s]
      · simp [runAllTests, ih, List.filter_cons, h99, h0]

/-- Helper: the lengths of three filters by mutually exclusive predicates
(the third being the complement of the other two) add up to the length of the
list. -/
theorem filter_length_tripartition (l : List α) (p q : α → Bool)
    (hpq : ∀ a, ¬(p a = true ∧ q a = true)) :
    (l.filter p).length + (l.filter q).length
        + (l.filter (fun a => !q a && !p a)).length = l.length := by
  induction l with
  | nil => rfl
  | cons a l ih =>
    by_cases hp : p a = true
    · have hq : ¬ q a = true := fun hq => hpq a ⟨hp, hq⟩
      simp [List.filter_cons, hp, hq]
      omega
    · by_cases hq : q a = true
      · simp [List.filter_cons, hp, hq]
        omega
      · simp [List.filter_cons, hp, hq]
        omega

/-- Helper: membership in the passed bucket of `runAllTests`. -/
theorem mem_passed_iff (tm : String) (behav : String → ProcBehavior)
    (outs : String → String) (files : List String) (f : String) :
    (⟨f⟩ : TestResult) ∈ ( runAllTests tm behav outs files ).1
      ↔ f ∈ files ∧ runOne tm behav outs f = 0 := by
  rw [runAllTests_eq_filters]
  simp [List.mem_map, List.mem_filter]

/-- Helper: membership in the skipped bucket of `runAllTests`. -/
theorem mem_skipped_iff (tm : String) (behav : String → ProcBehavior)
    (outs : String → String) (files : List String) (f : String) :
    (⟨f⟩ : TestResult) ∈ ( runAllTests tm behav outs files ).2.1
      ↔ f ∈ files ∧ runOne tm behav outs f = skipTestExitCode := by
  rw [runAllTests_eq_filters]
  simp [List.mem_map, List.mem_filter]

/-- Helper: membership in the failed bucket of `runAllTests`. -/
theorem mem_failed_iff (tm : String) (behav : String → ProcBehavior)
    (outs : String → String) (files : List String) (f : String) (c : Int) :
    (⟨⟨f⟩, c⟩ : FailedResult) ∈ ( runAllTests tm behav outs files ).2.2
      ↔ f ∈ files ∧ runOne tm behav outs f ≠ skipTestExitCode
          ∧ runOne tm behav outs f ≠ 0 ∧ c = runOne tm behav outs f := by
  rw [runAllTests_eq_filters]
  simp [List.mem_map, List.mem_filter]
  constructor
  · rintro ⟨a, ⟨ha, h99, h0⟩, rfl, hc⟩
    exact ⟨ha, h99, h0, hc.symm⟩
  · rintro ⟨hf, h99, h0, rfl⟩
    exact ⟨f, ⟨hf, h99, h0⟩, rfl, rfl⟩

/-- C1: for a test script whose process terminates on its own, the recorded
outcome is determined solely by its exit code: exit code 0 yields a Passed
result with exit code 0, the reserved skip code 99 yields a Skipped result
(and nothing in the failed bucket), and any other exit code `N` in 1..255
yields a Failed result carrying exactly `N`. -/
theorem exit_code_determines_outcome (tm out name : String) (code : Int)
    (hlow : 0 ≤ code) (hhigh : code ≤ 255) :
    ( runSingleTest tm (.exits code) out ).exitCode = code ∧
    (code = 0 →
      runAllTests tm (fun _ => .exits code) (fun _ => out) [name]
        = ([⟨name⟩], [], [])) ∧
    (code = skipTestExitCode →
      runAllTests tm (fun _ => .exits code) (fun _ => out) [name]
        = ([], [⟨name⟩], [])) ∧
    (1 ≤ code → code ≠ skipTestExitCode →
      runAllTests tm (fun _ => .exits code) (fun _ => out) [name]
        = ([], [], [⟨⟨name⟩, code⟩])) := by
  refine ⟨by rw [runSingleTest_exits], ?_, ?_, ?_⟩
  · rintro rfl
    simp [runAllTests, runOne, runSingleTest_exits, skipTestExitCode]
  · rintro rfl
    simp [runAllTests, runOne, runSingleTest_exits]
  · intro h1 h99
    have h0 : code ≠ 0 := by omega
    simp [runAllTests, runOne, runSingleTest_exits, h99, h0]

/-- Witness for C1 at the concrete exit code 7. -/
theorem exit_code_determines_outcome_witness :
    ((0 : Int) ≤ 7 ∧ (7 : Int) ≤ 255 ∧ (1 : Int) ≤ 7 ∧ (7 : Int) ≠ skipTestExitCode) ∧
    runAllTests "300s" (fun _ => .exits 7) (fun _ => "") ["t_test.sh"]
      = ([], [], [⟨⟨"t_test.sh"⟩, 7⟩]) :=
  ⟨by decide,
    (exit_code_determines_outcome "300s" "" "t_test.sh" 7
      (by decide) (by decide)).2.2.2 (by decide) (by decide)⟩

/-- C2: each test file handed to `runAllTests` lands in exactly one of the
passed, skipped, or failed buckets, and the bucket sizes add up to the number
of files. -/
theorem every_script_in_exactly_one_bucket (tm : String)
    (behav : String → ProcBehavior) (outs : String → String) (files : List String) :
    ( ( runAllTests tm behav outs files ).1.length
        + ( runAllTests tm behav outs files ).2.1.length
        + ( runAllTests tm behav outs files ).2.2.length = files.length ) ∧
    ∀ f ∈ files,
      ( (⟨f⟩ : TestResult) ∈ ( runAllTests tm behav outs files ).1
          ∧ (⟨f⟩ : TestResult) ∉ ( runAllTests tm behav outs files ).2.1
          ∧ ∀ c : Int, (⟨⟨f⟩, c⟩ : FailedResult) ∉ ( runAllTests tm behav outs files ).2.2 )
      ∨ ( (⟨f⟩ : TestResult) ∉ ( runAllTests tm behav outs files ).1
          ∧ (⟨f⟩ : TestResult) ∈ ( runAllTests tm behav outs files ).2.1
          ∧ ∀ c : Int, (⟨⟨f⟩, c⟩ : FailedResult) ∉ ( runAllTests tm behav outs files ).2.2 )
      ∨ ( (⟨f⟩ : TestResult) ∉ ( runAllTests tm behav outs files ).1
          ∧ (⟨f⟩ : TestResult) ∉ ( runAllTests tm behav outs files ).2.1
          ∧ (⟨⟨f⟩, runOne tm behav outs f⟩ : FailedResult)
              ∈ ( runAllTests tm behav outs files ).2.2 ) := by
  constructor
  · rw [runAllTests_eq_filters]
    simp only [List.length_map]
    exact filter_length_tripartition files _ _
      (fun a => by
        rintro ⟨h0, h99⟩
        rw [beq_iff_eq] at h0 h99
        rw [h0] at h99
        exact absurd h99 (by decide))
  · intro f hf
    by_cases h0 : runOne tm behav outs f = 0
    · left
      refine ⟨(mem_passed_iff tm behav outs files f).mpr ⟨hf, h0⟩, ?_, ?_⟩
      · intro hmem
        have := ((mem_skipped_iff tm behav outs files f).mp hmem).2
        rw [h0] at this
        exact absurd this (by decide)
      · intro c hmem
        exact ((mem_failed_iff tm behav outs files f c).mp hmem).2.2.1 h0
    · by_cases h99 : runOne tm behav outs f = skipTestExitCode
      · right; left
        refine ⟨?_, (mem_skipped_iff tm behav outs files f).mpr ⟨hf, h99⟩, ?_⟩
        · intro hmem
          exact h0 ((mem_passed_iff tm behav outs files f).mp hmem).2
        · intro c hmem
          exact ((mem_failed_iff tm behav outs files f c).mp hmem).2.1 h99
      · right; right
        refine ⟨?_, ?_, (mem_failed_iff tm behav outs files f _).mpr ⟨hf, h99, h0, rfl⟩⟩
        · intro hmem
          exact h0 ((mem_passed_iff tm behav outs files f).mp hmem).2
        · intro hmem
          exact h99 ((mem_skipped_iff tm behav outs files f).mp hmem).2

/-- Witness for C2 on a concrete three-file run with one pass, one skip and
one failure. -/
theorem every_script_in_exactly_one_bucket_witness :
    ( ( runAllTests "1s"
          (fun f => if f = "a" then .exits 0 else if f = "b" then .exits 99 else .exits 3)
          (fun _ => "") ["a", "b", "c"] ).1.length
        + ( runAllTests "1s"
          (fun f => if f = "a" then .exits 0 else if f = "b" then .exits 99 else .exits 3)
          (fun _ => "") ["a", "b", "c"] ).2.1.length
        + ( runAllTests "1s"
          (fun f => if f = "a" then .exits 0 else if f = "b" then .exits 99 else .exits 3)
          (fun _ => "") ["a", "b", "c"] ).2.2.length = 3 ) ∧
    ( ("b" ∈ ["a", "b", "c"]) ∧
      ( (⟨"b"⟩ : TestResult) ∈ ( runAllTests "1s"
          (fun f => if f = "a" then .exits 0 else if f = "b" then .exits 99 else .exits 3)
          (fun _ => "") ["a", "b", "c"] ).2.1 ) ) := by
  have h := every_script_in_exactly_one_bucket "1s"
    (fun f => if f = "a" then .exits 0 else if f = "b" then .exits 99 else .exits 3)
    (fun _ => "") ["a", "b", "c"]
  refine ⟨h.1, by decide, ?_⟩
  have hb := h.2 "b" (by decide)
  rcases hb with ⟨hp, _, _⟩ | ⟨_, hs, _⟩ | ⟨_, _, hfm⟩
  · exact absurd hp (by decide)
  · exact hs
  · exact absurd hfm (by decide)

/-- C3 counterexample: an explicitly named file target that does not match the
include pattern is dropped by discovery even though the exclude pattern does
not match it, contradicting the claim that single-file targets bypass the
include filter. -/
theorem explicit_file_bypasses_include_counterexample :
    discoverTargetTests (fun _ => false) (fun _ => false)
        ⟨"/d/a_test.sh", false, []⟩ = [] ∧
    (fun (_ : String) => false) "/d/a_test.sh" = false ∧
    ([] : List String) ≠ ["/d/a_test.sh"] :=
  ⟨rfl, rfl, by decide⟩

/-- C3 amended: a single-file target is filtered by BOTH the include and the
exclude pattern (kept exactly when it matches include and not exclude), the
same predicate a walked directory file must satisfy. -/
theorem explicit_file_filtered_by_include_and_exclude (inc exc : String → Bool)
    (p : String) (w : List String) :
    discoverTargetTests inc exc ⟨p, false, w⟩
        = (if inc p && !exc p then [p] else []) ∧
    discoverTargetTests inc exc ⟨p, true, w⟩
        = w.filter (fun q => inc q && !exc q) := by
  constructor
  · cases hin : inc p <;> cases hex : exc p <;>
      simp [discoverTargetTests, hin, hex]
  · rfl

/-- C4 counterexample: when the timeout fires, the per-test capture buffer
does not contain the "Killed by testbrain" marker (the engine writes it to the
runner's stderr instead), contradicting the claim that the captured output of
the timed-out test contains it. -/
theorem timeout_marker_not_in_captured_output_counterexample :
    ( runSingleTest "1s" .runsPastTimeout "" ).exitCode = unknownExitCode ∧
    ¬ strContains ( runSingleTest "1s" .runsPastTimeout "" ).capturedText
        ( timeoutMarker "1s" ) := by
  refine ⟨rfl, ?_⟩
  rintro ⟨pre, post, h⟩
  have hcap : ( runSingleTest "1s" .runsPastTimeout "" ).capturedText = "" := rfl
  rw [hcap] at h
  have hlen := congrArg String.length h
  rw [String.length_append, String.length_append] at hlen
  have hm : ( timeoutMarker "1s" ).length = 40 := rfl
  rw [hm] at hlen
  have h0 : ("" : String).length = 0 := rfl
  rw [h0] at hlen
  omega

/-- C4 amended: when the timeout elapses first, the engine kills the process,
the result is Failed with the unknown-exit sentinel -1, and the marker
"Killed by testbrain: Timed out after &lt;duration&gt;" is written to the
runner's error stream (not into the test's capture buffer, which keeps only
what the process itself wrote). -/
theorem timeout_kill_failed_marker_on_stderr (tm out name : String) :
    runSingleTest tm .runsPastTimeout out
        = { exitCode := unknownExitCode
            stderrText := timeoutMarker tm
            capturedText := out } ∧
    runAllTests tm (fun _ => .runsPastTimeout) (fun _ => out) [name]
        = ([], [], [⟨⟨name⟩, unknownExitCode⟩]) ∧
    strContains ( runSingleTest tm .runsPastTimeout out ).stderrText
        ( timeoutMarker tm ) := by
  refine ⟨rfl, ?_, "", "", by simp [runSingleTest]⟩
  simp [runAllTests, runOne, runSingleTest, skipTestExitCode, unknownExitCode]

/-- C5: the seeded shuffle is a deterministic function of the seed and the
input list: running it twice with the same seed on the same non-empty list
yields identical permutations, whatever generator state the process-global
generator held before each of the two runs (seeding overwrites that state). -/
theorem shuffle_same_seed_same_order {σ : Type} (g : RandGen σ) (seed : Int)
    (l : List String) (s1 s2 : σ) (hl : l ≠ []) :
    ( shuffleOrder g seed l s1 ).1 = ( shuffleOrder g seed l s2 ).1 := rfl

/-- Witness for C5 on a concrete three-element list and two distinct prior
generator states. -/
theorem shuffle_same_seed_same_order_witness :
    (["a", "b", "c"] : List String) ≠ [] ∧
    ( shuffleOrder demoGen 42 ["a", "b", "c"] 5 ).1
      = ( shuffleOrder demoGen 42 ["a", "b", "c"] 11 ).1 :=
  ⟨by decide, shuffle_same_seed_same_order demoGen 42 ["a", "b", "c"] 5 11 (by decide)⟩

/-- C9 counterexample: the shuffle mutates the process-global generator state
(it calls `rand.Seed` and `rand.Intn` on the shared generator): after shuffling
a two-element list, the global state left behind differs from the prior state
0, contradicting the claim that the shuffle neither reads nor mutates shared
generator state. -/
theorem shuffle_mutates_global_state_counterexample :
    ( shuffleOrder demoGen 1 ["a", "b"] (0 : Nat) ).2 ≠ 0 := by decide

/-- C9 amended: the shuffle is NOT scoped to a private generator — it reseeds
and advances the process-global generator — but the reseeding overwrites any
prior state, so the shuffle's entire effect (both the permutation and the
global state it leaves behind) depends only on the seed and the list, never on
earlier draws; conversely the state it leaves behind differs in general from
the prior state, so later draws elsewhere in the process are affected. -/
theorem shuffle_reseeds_global_state {σ : Type} (g : RandGen σ) (seed : Int)
    (l : List String) (s1 s2 : σ) :
    shuffleOrder g seed l s1 = shuffleOrder g seed l s2 ∧
    ( shuffleOrder demoGen 7 ["x", "y", "z"] 3 ).2 ≠ 3 :=
  ⟨rfl, by decide⟩

/-- C6: with more than one target and exactly one discovered script, the
computed root is that script's parent directory; on a concrete two-target run
the full discovery returns that parent as the root, whereas the naive
common-prefix computation on the one-element list would return the file path
itself, which differs. -/
theorem single_match_root_is_parent_dir (targets : List Target) (onlyTest : String)
    (h2 : 2 ≤ targets.length) :
    computeTestRoot targets [onlyTest] = .ok ( filepathDir onlyTest ) ∧
    getTestScripts (fun _ => true) (fun _ => false)
        [⟨"/r/a/x_test.sh", false, []⟩, ⟨"/r/b", true, []⟩]
      = .ok ("/r/a", ["x_test.sh"]) ∧
    CommonPathPrefix ["/r/a/x_test.sh"] = .ok "/r/a/x_test.sh" ∧
    ("/r/a" : String) ≠ "/r/a/x_test.sh" := by
  refine ⟨?_, rfl, rfl, by decide⟩
  unfold computeTestRoot
  rw [if_pos (by omega)]

/-- Witness for C6 on a concrete pair of targets and a concrete single match. -/
theorem single_match_root_is_parent_dir_witness :
    2 ≤ ([⟨"/q/a", true, []⟩, ⟨"/q/b", true, []⟩] : List Target).length ∧
    computeTestRoot [⟨"/q/a", true, []⟩, ⟨"/q/b", true, []⟩] ["/q/z/k_test.sh"]
      = .ok "/q/z" := by
  refine ⟨by decide, ?_⟩
  have h := single_match_root_is_parent_dir
    [⟨"/q/a", true, []⟩, ⟨"/q/b", true, []⟩] "/q/z/k_test.sh" (by decide)
  have e : filepathDir "/q/z/k_test.sh" = "/q/z" := rfl
  exact e ▸ h.1

/-- C7 counterexample: a test whose process fails to start is recorded in the
FAILED bucket (with the unknown-exit sentinel), not in any outcome distinct
from Failed — the current engine has no separate Errored outcome. -/
theorem spawn_failure_counted_as_failed_counterexample :
    runAllTests "300s" (fun _ => .startError "permission denied") (fun _ => "") ["t"]
      = ([], [], [⟨⟨"t"⟩, unknownExitCode⟩]) ∧
    (⟨⟨"t"⟩, unknownExitCode⟩ : FailedResult)
      ∈ ( runAllTests "300s" (fun _ => .startError "permission denied")
            (fun _ => "") ["t"] ).2.2 :=
  ⟨rfl, by decide⟩

/-- C7 amended: a test whose process fails to start is recorded as a Failed
result with the unknown-exit sentinel -1, the underlying OS error message is
written to the runner's error stream as "Test failed: &lt;err&gt;", and
execution continues with the next test in the sequence (the remaining tests'
buckets are untouched). -/
theorem spawn_failure_failed_and_continues (tm msg out name : String)
    (restFiles : List String) (behav : String → ProcBehavior)
    (outs : String → String) (hb : behav name = .startError msg) :
    runSingleTest tm (.startError msg) out
        = { exitCode := unknownExitCode
            stderrText := "Test failed: " ++ msg
            capturedText := "" } ∧
    runAllTests tm behav outs (name :: restFiles)
        = ( ( runAllTests tm behav outs restFiles ).1,
            ( runAllTests tm behav outs restFiles ).2.1,
            ⟨⟨name⟩, unknownExitCode⟩ :: ( runAllTests tm behav outs restFiles ).2.2 ) := by
  refine ⟨rfl, ?_⟩
  simp [runAllTests, runOne, hb, runSingleTest, skipTestExitCode, unknownExitCode]

/-- Witness for C7 on a concrete spawn failure followed by a passing test. -/
theorem spawn_failure_failed_and_continues_witness :
    ((fun f => if f = "bad" then ProcBehavior.startError "no such file"
        else ProcBehavior.exits 0) "bad" = .startError "no such file") ∧
    runAllTests "1s"
        (fun f => if f = "bad" then ProcBehavior.startError "no such file"
          else ProcBehavior.exits 0)
        (fun _ => "") ["bad", "good"]
      = ([⟨"good"⟩], [], [⟨⟨"bad"⟩, unknownExitCode⟩]) := by
  have h := spawn_failure_failed_and_continues "1s" "no such file" "" "bad" ["good"]
    (fun f => if f = "bad" then ProcBehavior.startError "no such file"
      else ProcBehavior.exits 0)
    (fun _ => "") (by decide)
  refine ⟨by decide, ?_⟩
  rw [h.2]
  rfl

/-- C8: the run as a whole succeeds (RunCommand returns `nil`) on a discovery
failure never; on a dry run always; and otherwise exactly when no test landed
in the failed bucket — in particular a run whose tests all pass or skip
succeeds. -/
theorem run_succeeds_iff_no_failures (tm : String) (behav : String → ProcBehavior)
    (outs : String → String) :
    (∀ msg dryRun, RunCommand tm behav outs dryRun (.failure msg) = .error msg) ∧
    (∀ testRoot files, RunCommand tm behav outs true (.success testRoot files) = .ok ()) ∧
    (∀ testRoot files,
      (RunCommand tm behav outs false (.success testRoot files) = .ok ()
        ↔ ( runAllTests tm behav outs files ).2.2 = [])) ∧
    (∀ testRoot files,
      (∀ f ∈ files, ( runSingleTest tm (behav f) (outs f) ).exitCode = 0
          ∨ ( runSingleTest tm (behav f) (outs f) ).exitCode = skipTestExitCode) →
      RunCommand tm behav outs false (.success testRoot files) = .ok ()) := by
  have key : ∀ testRoot files,
      (RunCommand tm behav outs false (.success testRoot files) = .ok ()
        ↔ ( runAllTests tm behav outs files ).2.2 = []) := by
    intro testRoot files
    have hrc : RunCommand tm behav outs false (.success testRoot files)
        = (if ( runAllTests tm behav outs files ).2.2.length = 0
            then Except.ok ()
            else Except.error
              (toString ( runAllTests tm behav outs files ).2.2.length
                ++ " tests failed")) := rfl
    rw [hrc]
    by_cases hlen : ( runAllTests tm behav outs files ).2.2.length = 0
    · rw [if_pos hlen]
      simp [List.length_eq_zero.mp hlen]
    · rw [if_neg hlen]
      constructor
      · intro h; exact absurd h (by simp)
      · intro h; exact absurd (congrArg List.length h) (by simpa using hlen)
  refine ⟨fun msg dryRun => rfl, fun testRoot files => rfl, key, ?_⟩
  intro testRoot files hall
  rw [key testRoot files, runAllTests_eq_filters]
  have : files.filter (fun f =>
      !(runOne tm behav outs f == skipTestExitCode)
        && !(runOne tm behav outs f == 0)) = [] := by
    rw [List.filter_eq_nil_iff]
    intro f hf
    rcases hall f hf with h0 | h99
    · simp [runOne, h0]
    · simp [runOne, h99]
  rw [this]
  rfl

/-- Witness for C8: a concrete two-test run with one pass and one skip
returns success. -/
theorem run_succeeds_iff_no_failures_witness :
    (∀ f ∈ ["p", "s"],
      ( runSingleTest "1s" ((fun g => if g = "s" then ProcBehavior.exits 99
          else ProcBehavior.exits 0) f) ((fun _ => "") f) ).exitCode = 0
        ∨ ( runSingleTest "1s" ((fun g => if g = "s" then ProcBehavior.exits 99
          else ProcBehavior.exits 0) f) ((fun _ => "") f) ).exitCode = skipTestExitCode) ∧
    RunCommand "1s"
        (fun g => if g = "s" then ProcBehavior.exits 99 else ProcBehavior.exits 0)
        (fun _ => "") false (.success "/r" ["p", "s"]) = .ok () := by
  refine ⟨by decide, ?_⟩
  exact (run_succeeds_iff_no_failures "1s"
      (fun g => if g = "s" then ProcBehavior.exits 99 else ProcBehavior.exits 0)
      (fun _ => "")).2.2.2 "/r" ["p", "s"] (by decide)

/-- C10: with more than one target and zero matching scripts, `getTestScripts`
returns successfully with the empty string as the common root and an empty
script list, because `CommonPathPrefix` on an empty path list yields `""`
without an error. -/
theorem zero_matches_empty_root (inc exc : String → Bool) (targets : List Target)
    (h2 : 2 ≤ targets.length)
    (hnone : ∀ t ∈ targets, discoverTargetTests inc exc t = []) :
    getTestScripts inc exc targets = .ok ("", []) ∧
    CommonPathPrefix ([] : List String) = .ok "" := by
  have hflat : (targets.map (discoverTargetTests inc exc)).flatten = [] := by
    rw [List.flatten_eq_nil_iff]
    intro l hl
    rcases List.mem_map.mp hl with ⟨t, ht, rfl⟩
    exact hnone t ht
  have hroot : computeTestRoot targets [] = .ok "" := by
    unfold computeTestRoot
    rw [if_pos (show targets.length > 1 by omega)]
    rfl
  refine ⟨?_, rfl⟩
  simp only [getTestScripts, hflat, hroot]
  rfl

/-- Witness for C10 on two concrete directory targets with no matching
walked files. -/
theorem zero_matches_empty_root_witness :
    (2 ≤ ([⟨"/u/a", true, ["/u/a/readme.txt"]⟩, ⟨"/u/b", true, []⟩] : List Target).length) ∧
    (∀ t ∈ ([⟨"/u/a", true, ["/u/a/readme.txt"]⟩, ⟨"/u/b", true, []⟩] : List Target),
      discoverTargetTests (fun _ => false) (fun _ => false) t = []) ∧
    getTestScripts (fun _ => false) (fun _ => false)
        [⟨"/u/a", true, ["/u/a/readme.txt"]⟩, ⟨"/u/b", true, []⟩] = .ok ("", []) := by
  refine ⟨by decide, by decide, ?_⟩
  exact (zero_matches_empty_root (fun _ => false) (fun _ => false)
      [⟨"/u/a", true, ["/u/a/readme.txt"]⟩, ⟨"/u/b", true, []⟩]
      (by decide) (by decide)).1

end Testbrain
